import Mathlib

/-!
Verification of the AERONET availability-processing repository.

The definitions below are a shallow embedding of the Python sources:
calendar arithmetic mirrors Python `datetime`/`pandas.Timestamp` day
arithmetic, data frames become lists of parsed rows, and each embedded
function carries a comment naming the source function it models.
-/

namespace Aeronet

/-! ## Gregorian calendar model

Python `datetime.datetime` / `pandas.Timestamp` values are proleptic
Gregorian calendar dates; subtraction of two timestamps yields the exact
number of calendar days between them.  We model a date as a
(year, month, day) triple and define the day ordinal used to reason about
date differences and distinct-date counts. -/

/-- Gregorian leap-year rule (as implemented by Python `datetime`). -/
def isLeap (y : ℕ) : Bool :=
  (y % 4 == 0 && y % 100 != 0) || (y % 400 == 0)

/-- Number of days of month `m` (1–12) in year `y`. -/
def daysInMonth (y m : ℕ) : ℕ :=
  if m = 2 then (if isLeap y then 29 else 28)
  else if m = 4 ∨ m = 6 ∨ m = 9 ∨ m = 11 then 30
  else 31

/-- Number of days in year `y`. -/
def daysInYear (y : ℕ) : ℕ := if isLeap y then 366 else 365

/-- Days of year `y` that lie strictly before month `m`. -/
def daysBeforeMonth (y m : ℕ) : ℕ :=
  ∑ i ∈ Finset.range (m - 1), daysInMonth y (i + 1)

/-- Days lying strictly before year `y` (counting from year 0). -/
def daysBeforeYear (y : ℕ) : ℕ :=
  ∑ i ∈ Finset.range y, daysInYear i

/-- A calendar date as produced by parsing a `dd:mm:yyyy` field. -/
structure Date where
  year : ℕ
  month : ℕ
  day : ℕ
deriving DecidableEq

/-- A (year, month, day) triple denotes an actual calendar date. -/
def Date.valid (d : Date) : Prop :=
  1 ≤ d.month ∧ d.month ≤ 12 ∧ 1 ≤ d.day ∧ d.day ≤ daysInMonth d.year d.month

instance (d : Date) : Decidable d.valid := by
  unfold Date.valid
  infer_instance

/-- Day ordinal of a date: the number of days between year 0, Jan 1 and
`d`.  Differences of ordinals are exactly what Python
`(date2 - date1).days` computes. -/
def dateOrdinal (d : Date) : ℕ :=
  daysBeforeYear d.year + daysBeforeMonth d.year d.month + (d.day - 1)

/-- Embeds `(datetime(endYear,12,31) - datetime(startYear,1,1)).days + 1`,
the inclusive day count of the analysis window computed in
`AeronetProcessor.__init__` (process_aeronet_availability.py, lines 70–72)
and in `calculate_representative_days` (map_utils.py, lines 753–756). -/
def totalDaysPeriod (startYear endYear : ℕ) : ℕ :=
  dateOrdinal ⟨endYear, 12, 31⟩ - dateOrdinal ⟨startYear, 1, 1⟩ + 1

theorem daysBeforeMonth_succ (y m : ℕ) (hm : 1 ≤ m) :
    daysBeforeMonth y (m + 1) = daysBeforeMonth y m + daysInMonth y m := by
  unfold daysBeforeMonth
  have h1 : m + 1 - 1 = (m - 1) + 1 := by omega
  have h2 : m - 1 + 1 = m := by omega
  rw [h1, Finset.sum_range_succ, h2]

theorem daysBeforeMonth_mono (y : ℕ) {m1 m2 : ℕ} (h : m1 ≤ m2) :
    daysBeforeMonth y m1 ≤ daysBeforeMonth y m2 := by
  unfold daysBeforeMonth
  exact Finset.sum_le_sum_of_subset (Finset.range_subset.mpr (by omega))

theorem daysBeforeMonth_thirteen (y : ℕ) :
    daysBeforeMonth y 13 = daysInYear y := by
  unfold daysBeforeMonth daysInYear
  cases h : isLeap y <;>
    simp [Finset.sum_range_succ, daysInMonth, h]

theorem daysBeforeYear_succ (y : ℕ) :
    daysBeforeYear (y + 1) = daysBeforeYear y + daysInYear y := by
  unfold daysBeforeYear
  rw [Finset.sum_range_succ]

theorem daysBeforeYear_mono {y1 y2 : ℕ} (h : y1 ≤ y2) :
    daysBeforeYear y1 ≤ daysBeforeYear y2 := by
  unfold daysBeforeYear
  exact Finset.sum_le_sum_of_subset (Finset.range_subset.mpr h)

theorem ordinalInYear_lt (d : Date) (hd : d.valid) :
    daysBeforeMonth d.year d.month + (d.day - 1) < daysInYear d.year := by
  obtain ⟨h1, h2, h3, h4⟩ := hd
  have h5 : daysBeforeMonth d.year (d.month + 1)
      = daysBeforeMonth d.year d.month + daysInMonth d.year d.month :=
    daysBeforeMonth_succ _ _ h1
  have h6 : daysBeforeMonth d.year (d.month + 1) ≤ daysBeforeMonth d.year 13 :=
    daysBeforeMonth_mono _ (by omega)
  rw [daysBeforeMonth_thirteen] at h6
  omega

theorem dateOrdinal_lt_next_year (d : Date) (hd : d.valid) :
    dateOrdinal d < daysBeforeYear (d.year + 1) := by
  have h1 := ordinalInYear_lt d hd
  rw [daysBeforeYear_succ]
  unfold dateOrdinal
  omega

theorem daysBeforeYear_le_dateOrdinal (d : Date) :
    daysBeforeYear d.year ≤ dateOrdinal d := by
  unfold dateOrdinal
  omega

theorem dateOrdinal_inj {d1 d2 : Date} (h1 : d1.valid) (h2 : d2.valid)
    (h : dateOrdinal d1 = dateOrdinal d2) : d1 = d2 := by
  have hy : d1.year = d2.year := by
    by_contra hne
    rcases Nat.lt_or_ge d1.year d2.year with hlt | hge
    · have a1 := dateOrdinal_lt_next_year d1 h1
      have a2 := daysBeforeYear_mono (show d1.year + 1 ≤ d2.year by omega)
      have a3 := daysBeforeYear_le_dateOrdinal d2
      omega
    · have hlt : d2.year < d1.year := by omega
      have a1 := dateOrdinal_lt_next_year d2 h2
      have a2 := daysBeforeYear_mono (show d2.year + 1 ≤ d1.year by omega)
      have a3 := daysBeforeYear_le_dateOrdinal d1
      omega
  obtain ⟨y1, m1, dy1⟩ := d1
  obtain ⟨y2, m2, dy2⟩ := d2
  subst hy
  simp only [Date.valid] at h1 h2
  obtain ⟨m1a, m1b, d1a, d1b⟩ := h1
  obtain ⟨m2a, m2b, d2a, d2b⟩ := h2
  unfold dateOrdinal at h
  simp only at h
  have hord : daysBeforeMonth y1 m1 + (dy1 - 1)
      = daysBeforeMonth y1 m2 + (dy2 - 1) := by omega
  have hm : m1 = m2 := by
    by_contra hne
    rcases Nat.lt_or_ge m1 m2 with hlt | hge
    · have a1 : daysBeforeMonth y1 m1 + (dy1 - 1)
          < daysBeforeMonth y1 (m1 + 1) := by
        rw [daysBeforeMonth_succ _ _ m1a]
        omega
      have a2 : daysBeforeMonth y1 (m1 + 1) ≤ daysBeforeMonth y1 m2 :=
        daysBeforeMonth_mono _ (by omega)
      omega
    · have hlt : m2 < m1 := by omega
      have a1 : daysBeforeMonth y1 m2 + (dy2 - 1)
          < daysBeforeMonth y1 (m2 + 1) := by
        rw [daysBeforeMonth_succ _ _ m2a]
        omega
      have a2 : daysBeforeMonth y1 (m2 + 1) ≤ daysBeforeMonth y1 m1 :=
        daysBeforeMonth_mono _ (by omega)
      omega
  subst hm
  have hd : dy1 = dy2 := by omega
  subst hd
  rfl

theorem dateOrdinal_mem_window {d : Date} (hd : d.valid)
    (hy1 : 1995 ≤ d.year) (hy2 : d.year ≤ 2024) :
    dateOrdinal d ∈ Finset.Ico (daysBeforeYear 1995) (daysBeforeYear 2025) := by
  rw [Finset.mem_Ico]
  constructor
  · exact le_trans (daysBeforeYear_mono hy1) (daysBeforeYear_le_dateOrdinal d)
  · exact lt_of_lt_of_le (dateOrdinal_lt_next_year d hd)
      (daysBeforeYear_mono (by omega))

theorem daysInYear_eq (y : ℕ) :
    daysInYear y = if (y % 4 = 0 ∧ ¬ y % 100 = 0) ∨ y % 400 = 0 then 366 else 365 := by
  simp only [daysInYear, isLeap, Bool.or_eq_true, Bool.and_eq_true, beq_iff_eq,
    bne_iff_ne, ne_eq]

/-- Closed form for `daysBeforeYear`, used to evaluate it on concrete years
without unfolding the 2000-term sum. -/
theorem daysBeforeYear_closed (y : ℕ) :
    daysBeforeYear y = 365 * y + (y + 3) / 4 - (y + 99) / 100 + (y + 399) / 400 := by
  induction y with
  | zero => rfl
  | succ n ih =>
    rw [daysBeforeYear_succ, ih, daysInYear_eq]
    split <;> omega

/-- The configured analysis window 1995-01-01…2024-12-31 spans 10,958 days
(30 years, 8 of them leap). -/
theorem totalDaysPeriod_eval : totalDaysPeriod 1995 2024 = 10958 := by
  have h1 : daysBeforeMonth 2024 12 = 335 := by decide
  have h2 : daysBeforeMonth 1995 1 = 0 := by decide
  unfold totalDaysPeriod dateOrdinal
  simp only [h1, h2, daysBeforeYear_closed]

theorem window_size_eval :
    daysBeforeYear 2025 - daysBeforeYear 1995 = totalDaysPeriod 1995 2024 := by
  have h1 : daysBeforeMonth 2024 12 = 335 := by decide
  have h2 : daysBeforeMonth 1995 1 = 0 := by decide
  unfold totalDaysPeriod dateOrdinal
  simp only [h1, h2, daysBeforeYear_closed]

/-- A duplicate-free list of valid dates whose years lie in 1995…2024 has
at most `totalDaysPeriod 1995 2024` elements. -/
theorem length_le_totalDays_of_window (dates : List Date) (hnd : dates.Nodup)
    (hv : ∀ d ∈ dates, d.valid ∧ 1995 ≤ d.year ∧ d.year ≤ 2024) :
    dates.length ≤ totalDaysPeriod 1995 2024 := by
  have hmapnd : (dates.map dateOrdinal).Nodup :=
    hnd.map_on (fun x hx y hy hxy => dateOrdinal_inj (hv x hx).1 (hv y hy).1 hxy)
  have hsub : (dates.map dateOrdinal).toFinset
      ⊆ Finset.Ico (daysBeforeYear 1995) (daysBeforeYear 2025) := by
    intro x hx
    rw [List.mem_toFinset, List.mem_map] at hx
    obtain ⟨d, hdmem, rfl⟩ := hx
    exact dateOrdinal_mem_window (hv d hdmem).1 (hv d hdmem).2.1 (hv d hdmem).2.2
  have hcard := Finset.card_le_card hsub
  rw [List.toFinset_card_of_nodup hmapnd, Nat.card_Ico] at hcard
  rw [List.length_map] at hcard
  rw [window_size_eval] at hcard
  exact hcard

/-! ## Dynamic-threshold availability processor

Embedding of `AeronetProcessor` (process_aeronet_availability.py). -/

/-- Configuration state stored by `AeronetProcessor.__init__`
(process_aeronet_availability.py, lines 37–72).  `totalDays` holds
`self.total_days = (self.end_date - self.start_date).days + 1`. -/
structure ProcessorCfg where
  minMeasurementsPerDay : ℕ
  thresholdMultiplier : ℚ
  startYear : ℕ
  endYear : ℕ
  totalDays : ℕ
deriving DecidableEq

/-- `AeronetProcessor.__init__`: records the parameters and derives
`total_days` from the start/end years (defaults are 8, 1.5, 1995, 2024). -/
def mkProcessor (minMeas : ℕ) (mult : ℚ) (startYear endYear : ℕ) : ProcessorCfg :=
  ⟨minMeas, mult, startYear, endYear, totalDaysPeriod startYear endYear⟩

/-- The dictionary returned by `AeronetProcessor.calculate_availability`
(process_aeronet_availability.py, lines 166–177). -/
structure AvailStats where
  total_days : ℕ
  days_with_data : ℕ
  representative_days : ℕ
  availability_percentage : ℚ
  representative_percentage : ℚ
  avg_measurements : ℚ
  dynamic_threshold : ℚ
  daily_counts : List (Date × ℕ)
  start_date : Option Date
  end_date : Option Date
deriving DecidableEq

/-- `df['date'].min()`: earliest date of a list under calendar order. -/
def dateMin (l : List Date) : Option Date :=
  l.foldl (fun acc d =>
    match acc with
    | none => some d
    | some m => if dateOrdinal d < dateOrdinal m then some d else some m) none

/-- `df['date'].max()`: latest date of a list under calendar order. -/
def dateMax (l : List Date) : Option Date :=
  l.foldl (fun acc d =>
    match acc with
    | none => some d
    | some m => if dateOrdinal m < dateOrdinal d then some d else some m) none

/-- The dynamic threshold
`max(self.min_measurements_per_day, avg_measurements * self.threshold_multiplier)`
(process_aeronet_availability.py, lines 154–157). -/
def dynamicThreshold (minMeasurementsPerDay : ℕ)
    (avgMeasurements thresholdMultiplier : ℚ) : ℚ :=
  max (minMeasurementsPerDay : ℚ) (avgMeasurements * thresholdMultiplier)

/-- Embeds `AeronetProcessor.calculate_availability`
(process_aeronet_availability.py, lines 123–177).  The input is the data
frame of parsed `(date, aod_500nm)` rows produced by `read_aod_data`;
`df.groupby(df['date'].dt.date).size()` becomes the list of
(distinct date, number of rows with that date) pairs. -/
def calculateAvailability (cfg : ProcessorCfg) (df : List (Date × ℚ)) :
    Option AvailStats :=
  if df.isEmpty then none
  else
    let dfm := df.filter (fun r =>
      decide (cfg.startYear ≤ r.1.year ∧ r.1.year ≤ cfg.endYear))
    if dfm.isEmpty then none
    else
      let dates := (dfm.map Prod.fst).dedup
      let dailyCounts := dates.map (fun d => (d, (dfm.map Prod.fst).count d))
      let positiveCounts := dailyCounts.filter (fun p => decide (0 < p.2))
      let avgMeasurements :=
        ((positiveCounts.map (fun p => (p.2 : ℚ))).sum) / (positiveCounts.length : ℚ)
      let threshold :=
        dynamicThreshold cfg.minMeasurementsPerDay avgMeasurements cfg.thresholdMultiplier
      some {
        total_days := dailyCounts.length
        days_with_data := positiveCounts.length
        representative_days :=
          (dailyCounts.filter (fun p => decide (threshold ≤ (p.2 : ℚ)))).length
        availability_percentage :=
          (positiveCounts.length : ℚ) / (cfg.totalDays : ℚ) * 100
        representative_percentage :=
          ((dailyCounts.filter (fun p => decide (threshold ≤ (p.2 : ℚ)))).length : ℚ)
            / (cfg.totalDays : ℚ) * 100
        avg_measurements := avgMeasurements
        dynamic_threshold := threshold
        daily_counts := dailyCounts
        start_date := dateMin (dfm.map Prod.fst)
        end_date := dateMax (dfm.map Prod.fst) }

/-- Characterization of a successful `calculate_availability` run: every
field of the returned statistics record in terms of the filtered data
frame. -/
theorem calculateAvailability_spec (cfg : ProcessorCfg) (df : List (Date × ℚ))
    (s : AvailStats) (h : calculateAvailability cfg df = some s) :
    (df.filter (fun r =>
        decide (cfg.startYear ≤ r.1.year ∧ r.1.year ≤ cfg.endYear))).isEmpty
      = false ∧
    s.daily_counts
        = ((df.filter (fun r =>
            decide (cfg.startYear ≤ r.1.year ∧ r.1.year ≤ cfg.endYear))).map
              Prod.fst).dedup.map
            (fun d => (d, ((df.filter (fun r =>
              decide (cfg.startYear ≤ r.1.year ∧ r.1.year ≤ cfg.endYear))).map
                Prod.fst).count d)) ∧
    s.total_days = s.daily_counts.length ∧
    s.days_with_data = (s.daily_counts.filter (fun p => decide (0 < p.2))).length ∧
    s.avg_measurements
        = (((s.daily_counts.filter (fun p => decide (0 < p.2))).map
            (fun p => (p.2 : ℚ))).sum)
          / ((s.daily_counts.filter (fun p => decide (0 < p.2))).length : ℚ) ∧
    s.dynamic_threshold
        = dynamicThreshold cfg.minMeasurementsPerDay s.avg_measurements
            cfg.thresholdMultiplier ∧
    s.representative_days
        = (s.daily_counts.filter
            (fun p => decide (s.dynamic_threshold ≤ (p.2 : ℚ)))).length ∧
    s.availability_percentage
        = (s.days_with_data : ℚ) / (cfg.totalDays : ℚ) * 100 := by
  unfold calculateAvailability at h
  split at h
  · exact absurd h (by simp)
  · dsimp only at h
    split at h
    · exact absurd h (by simp)
    · rename_i hne
      rw [Option.some_inj] at h
      subst h
      exact ⟨by simpa using hne, rfl, rfl, rfl, rfl, rfl, rfl, rfl⟩

/-! ## General-purpose availability analyzer (analyze_availability.py) -/

/-- The dictionary returned by `calculate_daily_availability`
(analyze_availability.py, lines 61–82). -/
structure DailyStats where
  total_days : ℕ
  days_with_data : ℕ
  availability_percentage : ℚ
  avg_measurements : ℚ
  daily_counts : List (Date × ℕ)
deriving DecidableEq

/-- Embeds `calculate_daily_availability` (analyze_availability.py,
lines 61–82): same group-by as the processor but with no window filter,
and the mean taken over all daily counts. -/
def calculateDailyAvailability (df : List (Date × ℚ)) : Option DailyStats :=
  if df.isEmpty then none
  else
    let dates := (df.map Prod.fst).dedup
    let dailyCounts := dates.map (fun d => (d, (df.map Prod.fst).count d))
    some {
      total_days := dailyCounts.length
      days_with_data := (dailyCounts.filter (fun p => decide (0 < p.2))).length
      availability_percentage :=
        if 0 < dailyCounts.length then
          ((dailyCounts.filter (fun p => decide (0 < p.2))).length : ℚ)
            / (dailyCounts.length : ℚ) * 100
        else 0
      avg_measurements :=
        ((dailyCounts.map (fun p => (p.2 : ℚ))).sum) / (dailyCounts.length : ℚ)
      daily_counts := dailyCounts }

/-- Characterization of a successful `calculate_daily_availability` run. -/
theorem calculateDailyAvailability_spec (df : List (Date × ℚ)) (t : DailyStats)
    (h : calculateDailyAvailability df = some t) :
    df.isEmpty = false ∧
    t.daily_counts
        = (df.map Prod.fst).dedup.map
            (fun d => (d, (df.map Prod.fst).count d)) ∧
    t.total_days = t.daily_counts.length ∧
    t.days_with_data = (t.daily_counts.filter (fun p => decide (0 < p.2))).length ∧
    t.availability_percentage
        = (if 0 < t.daily_counts.length then
            (t.days_with_data : ℚ) / (t.total_days : ℚ) * 100
          else 0) := by
  unfold calculateDailyAvailability at h
  split at h
  · exact absurd h (by simp)
  · rename_i hne
    rw [Option.some_inj] at h
    subst h
    exact ⟨by simpa using hne, rfl, rfl, rfl, rfl⟩

/-- Every entry of a group-by count list is positive: each retained date
occurs at least once in the grouped column. -/
theorem mem_dailyCounts_pos (l : List Date) {p : Date × ℕ}
    (hp : p ∈ l.dedup.map (fun d => (d, l.count d))) : 0 < p.2 := by
  rw [List.mem_map] at hp
  obtain ⟨d, hd, rfl⟩ := hp
  exact List.count_pos_iff.mpr (List.mem_dedup.mp hd)

/-- Filtering a group-by count list for positive counts keeps every row. -/
theorem dailyCounts_filter_pos (l : List Date) :
    (l.dedup.map (fun d => (d, l.count d))).filter (fun p => decide (0 < p.2))
      = l.dedup.map (fun d => (d, l.count d)) :=
  List.filter_eq_self.mpr (fun _p hp => decide_eq_true (mem_dailyCounts_pos l hp))

/-! ## AOD file parser: sentinel filtering (claim C3) -/

/-- Embeds the row-cleaning tail of `read_aod_data`, shared verbatim by
process_aeronet_availability.py (lines 106–116), map_utils.py
(lines 278–288) and analyze_availability.py (lines 43–53).  Each raw row
arrives as the pair of its coerced date and AOD-500 fields:
`pd.to_datetime(..., errors='coerce')` / `pd.to_numeric(..., errors='coerce')`
produce an absent value (`none`) on parse failure.  `dropna` keeps only
rows where both parsed, then `df = df[df[aod_col] != -999.000000]` drops
sentinel rows. -/
def cleanAodRows (rows : List (Option Date × Option ℚ)) : List (Date × ℚ) :=
  (rows.filterMap (fun r =>
    match r with
    | (some d, some a) => some (d, a)
    | _ => none)).filter (fun p => decide (p.2 ≠ -999))

/-! ## Marker color policies (claim C4) -/

/-- Embeds `get_marker_properties` (map_utils.py, lines 365–380): the
discrete marker-color policy, returning (hex color, group). -/
def getMarkerProperties (availability : ℚ) : String × String :=
  if 75 ≤ availability then ("#2ecc71", "high")
  else if 50 ≤ availability then ("#f1c40f", "medium")
  else ("#e74c3c", "low")

/-! ## Claims C1, C2, C10 -/

/-- **C1.** For every statistics record produced by
`AeronetProcessor.calculate_availability`, the dynamic threshold equals
`max(min_measurements_per_day, avg_measurements × threshold_multiplier)`,
where `avg_measurements` is the mean daily count over days with data; a
day is counted as representative if and only if its daily count is at
least that threshold; and with `avg_measurements = 5.0`, multiplier `1.5`
and floor `8` the threshold is `8`. -/
theorem claim_C1_dynamic_threshold (cfg : ProcessorCfg) (df : List (Date × ℚ))
    (s : AvailStats) (h : calculateAvailability cfg df = some s) :
    s.dynamic_threshold
        = max (cfg.minMeasurementsPerDay : ℚ)
            (s.avg_measurements * cfg.thresholdMultiplier) ∧
    s.avg_measurements
        = (((s.daily_counts.filter (fun p => decide (0 < p.2))).map
            (fun p => (p.2 : ℚ))).sum)
          / ((s.daily_counts.filter (fun p => decide (0 < p.2))).length : ℚ) ∧
    s.representative_days
        = (s.daily_counts.filter
            (fun p => decide (s.dynamic_threshold ≤ (p.2 : ℚ)))).length ∧
    dynamicThreshold 8 5 (3/2) = 8 := by
  obtain ⟨-, -, -, -, h4, h5, h6, -⟩ := calculateAvailability_spec cfg df s h
  refine ⟨?_, h4, h6, ?_⟩
  · rw [h5]
    rfl
  · show max ((8 : ℕ) : ℚ) (5 * (3 / 2)) = 8
    rw [max_eq_left (by norm_num)]
    norm_num

def cfgC1 : ProcessorCfg := ⟨8, 3/2, 1995, 2024, 10958⟩

def dfC1 : List (Date × ℚ) := [(⟨2020, 1, 1⟩, 1/2)]

def statsC1 : AvailStats :=
  ⟨1, 1, 0, 100/10958, 0, 1, 8, [(⟨2020, 1, 1⟩, 1)],
    some ⟨2020, 1, 1⟩, some ⟨2020, 1, 1⟩⟩

theorem claim_C1_witness :
    calculateAvailability cfgC1 dfC1 = some statsC1 ∧
    (statsC1.dynamic_threshold
        = max (cfgC1.minMeasurementsPerDay : ℚ)
            (statsC1.avg_measurements * cfgC1.thresholdMultiplier) ∧
     statsC1.avg_measurements
        = (((statsC1.daily_counts.filter (fun p => decide (0 < p.2))).map
            (fun p => (p.2 : ℚ))).sum)
          / ((statsC1.daily_counts.filter (fun p => decide (0 < p.2))).length : ℚ) ∧
     statsC1.representative_days
        = (statsC1.daily_counts.filter
            (fun p => decide (statsC1.dynamic_threshold ≤ (p.2 : ℚ)))).length ∧
     dynamicThreshold 8 5 (3/2) = 8) := by
  have h : calculateAvailability cfgC1 dfC1 = some statsC1 := by
    norm_num [calculateAvailability, cfgC1, dfC1, statsC1, dynamicThreshold,
      dateMin, dateMax, List.filter, List.dedup_cons_of_not_mem,
      List.count_cons, List.count_nil, List.isEmpty, List.foldl]
  exact ⟨h, claim_C1_dynamic_threshold cfgC1 dfC1 statsC1 h⟩

/-- **C2 (amended).** For every statistics record produced by
`calculate_availability` under the configured 1995–2024 window,
`representative_days ≤ days_with_data ≤` configured period length; the
values are non-negative integers (ℕ-typed); and the configured period
length for 1995-01-01…2024-12-31 inclusive is 10,958 days. -/
theorem claim_C2_invariant (cfg : ProcessorCfg) (df : List (Date × ℚ))
    (s : AvailStats)
    (hvalid : ∀ r ∈ df, (Prod.fst r).valid)
    (hsy : cfg.startYear = 1995) (hey : cfg.endYear = 2024)
    (htd : cfg.totalDays = totalDaysPeriod cfg.startYear cfg.endYear)
    (h : calculateAvailability cfg df = some s) :
    s.representative_days ≤ s.days_with_data ∧
    s.days_with_data ≤ cfg.totalDays ∧
    cfg.totalDays = 10958 := by
  obtain ⟨h0, h1, h2, h3, -, -, h6, -⟩ := calculateAvailability_spec cfg df s h
  have htd10958 : cfg.totalDays = 10958 := by
    rw [htd, hsy, hey, totalDaysPeriod_eval]
  have hdays : s.days_with_data = s.daily_counts.length := by
    rw [h3, h1, dailyCounts_filter_pos, ← h1]
  refine ⟨?_, ?_, htd10958⟩
  · rw [h6, hdays]
    exact List.length_filter_le _ _
  · rw [hdays, h1, List.length_map]
    have hv : ∀ d ∈ ((df.filter (fun r =>
        decide (cfg.startYear ≤ r.1.year ∧ r.1.year ≤ cfg.endYear))).map
          Prod.fst).dedup,
        d.valid ∧ 1995 ≤ d.year ∧ d.year ≤ 2024 := by
      intro d hd
      have hdL := List.mem_dedup.mp hd
      rw [List.mem_map] at hdL
      obtain ⟨r, hr, rfl⟩ := hdL
      rw [List.mem_filter] at hr
      have hyear := of_decide_eq_true hr.2
      rw [hsy, hey] at hyear
      exact ⟨hvalid r hr.1, hyear.1, hyear.2⟩
    have hb := length_le_totalDays_of_window _ (List.nodup_dedup _) hv
    rw [totalDaysPeriod_eval] at hb
    omega

/-- **C2 counterexample.** The period length configured by
`AeronetProcessor.__init__` for the window 1995-01-01…2024-12-31 is
10,958 days, not 10,957 as the claim states. -/
theorem claim_C2_counterexample :
    (mkProcessor 8 (3/2) 1995 2024).totalDays = 10958 ∧
    ¬ (mkProcessor 8 (3/2) 1995 2024).totalDays = 10957 := by
  have h : (mkProcessor 8 (3/2) 1995 2024).totalDays
      = totalDaysPeriod 1995 2024 := rfl
  rw [h, totalDaysPeriod_eval]
  exact ⟨rfl, by decide⟩

def cfgC2 : ProcessorCfg := ⟨8, 3/2, 1995, 2024, 10958⟩

def dfC2 : List (Date × ℚ) := [(⟨2020, 1, 1⟩, 1/2)]

def statsC2 : AvailStats :=
  ⟨1, 1, 0, 100/10958, 0, 1, 8, [(⟨2020, 1, 1⟩, 1)],
    some ⟨2020, 1, 1⟩, some ⟨2020, 1, 1⟩⟩

theorem claim_C2_witness :
    calculateAvailability cfgC2 dfC2 = some statsC2 ∧
    (statsC2.representative_days ≤ statsC2.days_with_data ∧
     statsC2.days_with_data ≤ cfgC2.totalDays ∧
     cfgC2.totalDays = 10958) := by
  have h : calculateAvailability cfgC2 dfC2 = some statsC2 := by
    norm_num [calculateAvailability, cfgC2, dfC2, statsC2, dynamicThreshold,
      dateMin, dateMax, List.filter, List.dedup_cons_of_not_mem,
      List.count_cons, List.count_nil, List.isEmpty, List.foldl]
  exact ⟨h, claim_C2_invariant cfgC2 dfC2 statsC2 (by decide) rfl rfl
    totalDaysPeriod_eval.symm h⟩

/-- **C10.** Both the dynamic-threshold processor and the general-purpose
analyzer produce statistics with `total_days = days_with_data` (group-by
daily counts are always ≥ 1), so the days-with-data-relative availability
computed from the two fields is 100% whenever any data exists; in the
analyzer that ratio is the reported `availability_percentage` itself. -/
theorem claim_C10_total_eq_days (cfg : ProcessorCfg)
    (df1 df2 : List (Date × ℚ)) (s : AvailStats) (t : DailyStats)
    (h1 : calculateAvailability cfg df1 = some s)
    (h2 : calculateDailyAvailability df2 = some t) :
    s.total_days = s.days_with_data ∧
    (∀ p ∈ s.daily_counts, 0 < p.2) ∧
    0 < s.total_days ∧
    (s.days_with_data : ℚ) / (s.total_days : ℚ) * 100 = 100 ∧
    t.total_days = t.days_with_data ∧
    t.availability_percentage = 100 := by
  obtain ⟨g0, g1, g2, g3, -, -, -, -⟩ := calculateAvailability_spec cfg df1 s h1
  obtain ⟨k0, k1, k2, k3, k4⟩ := calculateDailyAvailability_spec df2 t h2
  have hsdays : s.days_with_data = s.daily_counts.length := by
    rw [g3, g1, dailyCounts_filter_pos, ← g1]
  have hstot : s.total_days = s.days_with_data := by rw [g2, hsdays]
  have hslen : 0 < s.daily_counts.length := by
    rw [g1, List.length_map, List.length_pos, Ne, List.dedup_eq_nil,
      List.map_eq_nil_iff]
    intro hnil
    rw [hnil] at g0
    simp at g0
  have htdays : t.days_with_data = t.daily_counts.length := by
    rw [k3, k1, dailyCounts_filter_pos, ← k1]
  have httot : t.total_days = t.days_with_data := by rw [k2, htdays]
  have htlen : 0 < t.daily_counts.length := by
    rw [k1, List.length_map, List.length_pos, Ne, List.dedup_eq_nil,
      List.map_eq_nil_iff]
    intro hnil
    rw [hnil] at k0
    simp at k0
  have hsne : (s.days_with_data : ℚ) ≠ 0 := by
    rw [hsdays]
    exact_mod_cast Nat.pos_iff_ne_zero.mp hslen
  have htne : (t.days_with_data : ℚ) ≠ 0 := by
    rw [htdays]
    exact_mod_cast Nat.pos_iff_ne_zero.mp htlen
  refine ⟨hstot, ?_, ?_, ?_, httot, ?_⟩
  · intro p hp
    rw [g1] at hp
    exact mem_dailyCounts_pos _ hp
  · rw [hstot, hsdays]
    exact hslen
  · rw [hstot, div_self hsne, one_mul]
  · rw [k4, if_pos htlen, httot, div_self htne, one_mul]

def cfgC10 : ProcessorCfg := ⟨8, 3/2, 1995, 2024, 10958⟩

def dfC10a : List (Date × ℚ) := [(⟨2020, 1, 1⟩, 1/2)]

def dfC10b : List (Date × ℚ) := [(⟨2021, 5, 2⟩, 3/10)]

def statsC10 : AvailStats :=
  ⟨1, 1, 0, 100/10958, 0, 1, 8, [(⟨2020, 1, 1⟩, 1)],
    some ⟨2020, 1, 1⟩, some ⟨2020, 1, 1⟩⟩

def dailyStatsC10 : DailyStats := ⟨1, 1, 100, 1, [(⟨2021, 5, 2⟩, 1)]⟩

theorem claim_C10_witness :
    calculateAvailability cfgC10 dfC10a = some statsC10 ∧
    calculateDailyAvailability dfC10b = some dailyStatsC10 ∧
    (statsC10.total_days = statsC10.days_with_data ∧
     0 < statsC10.total_days ∧
     (statsC10.days_with_data : ℚ) / (statsC10.total_days : ℚ) * 100 = 100 ∧
     dailyStatsC10.total_days = dailyStatsC10.days_with_data ∧
     dailyStatsC10.availability_percentage = 100) := by
  have ha : calculateAvailability cfgC10 dfC10a = some statsC10 := by
    norm_num [calculateAvailability, cfgC10, dfC10a, statsC10, dynamicThreshold,
      dateMin, dateMax, List.filter, List.dedup_cons_of_not_mem,
      List.count_cons, List.count_nil, List.isEmpty, List.foldl]
  have hb : calculateDailyAvailability dfC10b = some dailyStatsC10 := by
    norm_num [calculateDailyAvailability, dfC10b, dailyStatsC10,
      List.filter, List.dedup_cons_of_not_mem,
      List.count_cons, List.count_nil, List.isEmpty]
  have h := claim_C10_total_eq_days cfgC10 dfC10a dfC10b statsC10 dailyStatsC10
    ha hb
  exact ⟨ha, hb, h.1, h.2.2.1, h.2.2.2.1, h.2.2.2.2.1, h.2.2.2.2.2⟩

/-! ## Claims C3, C4 -/

/-- **C3.** Every row of the parser output has a non-sentinel AOD value,
and a raw row whose AOD-500 field equals exactly -999.000000 is dropped
entirely: prepending such a row leaves the parsed output unchanged, so
sentinel rows contribute nothing to daily counts or statistics. -/
theorem claim_C3_sentinel_dropped (rows : List (Option Date × Option ℚ)) :
    (∀ p ∈ cleanAodRows rows, p.2 ≠ -999) ∧
    ∀ d : Date, cleanAodRows ((some d, some (-999 : ℚ)) :: rows)
      = cleanAodRows rows := by
  constructor
  · intro p hp
    have := List.of_mem_filter hp
    exact of_decide_eq_true this
  · intro d
    unfold cleanAodRows
    rw [List.filterMap_cons]
    simp only [List.filter_cons]
    norm_num

theorem claim_C3_witness :
    cleanAodRows
        [(some ⟨2020, 1, 1⟩, some (-999 : ℚ)), (some ⟨2020, 1, 2⟩, some (1/2))]
      = cleanAodRows [(some ⟨2020, 1, 2⟩, some ((1 : ℚ)/2))] ∧
    ((⟨2020, 1, 2⟩, (1 : ℚ)/2) : Date × ℚ).2 ≠ (-999 : ℚ) :=
  ⟨(claim_C3_sentinel_dropped [(some ⟨2020, 1, 2⟩, some ((1 : ℚ)/2))]).2
      ⟨2020, 1, 1⟩,
   (claim_C3_sentinel_dropped [(some ⟨2020, 1, 2⟩, some ((1 : ℚ)/2))]).1
      (⟨2020, 1, 2⟩, (1 : ℚ)/2)
      (by norm_num [cleanAodRows, List.filterMap, List.filter])⟩

/-- **C4 counterexample.** The discrete marker-color policy maps
availability exactly 0 to the red "low" color, not to the gray #808080
the claim asserts. -/
theorem claim_C4_counterexample :
    getMarkerProperties 0 = ("#e74c3c", "low") ∧
    (getMarkerProperties 0).1 ≠ "#808080" := by
  have h : getMarkerProperties 0 = ("#e74c3c", "low") := by
    unfold getMarkerProperties
    norm_num
  exact ⟨h, by rw [h]; decide⟩

/-- **C4 (amended).** The discrete marker-color policy maps every
availability ≥ 75 to the green "high" color #2ecc71, every value in
[50, 75) to the yellow "medium" color #f1c40f, and every other value —
including exactly 0 — to the red "low" color #e74c3c; it has no gray
branch (#808080 is never returned by the discrete policy). -/
theorem claim_C4_discrete_policy (a : ℚ) :
    (75 ≤ a → getMarkerProperties a = ("#2ecc71", "high")) ∧
    (50 ≤ a → a < 75 → getMarkerProperties a = ("#f1c40f", "medium")) ∧
    (a < 50 → getMarkerProperties a = ("#e74c3c", "low")) ∧
    (getMarkerProperties a).1 ≠ "#808080" := by
  unfold getMarkerProperties
  refine ⟨fun h1 => ?_, fun h1 h2 => ?_, fun h1 => ?_, ?_⟩
  · rw [if_pos h1]
  · rw [if_neg (by intro hc; linarith), if_pos h1]
  · rw [if_neg (by intro hc; linarith), if_neg (by intro hc; linarith)]
  · split_ifs <;> decide

theorem claim_C4_witness :
    ((75 : ℚ) ≤ 80 ∧ getMarkerProperties 80 = ("#2ecc71", "high")) ∧
    ((50 : ℚ) ≤ 60 ∧ (60 : ℚ) < 75 ∧
      getMarkerProperties 60 = ("#f1c40f", "medium")) ∧
    ((10 : ℚ) < 50 ∧ getMarkerProperties 10 = ("#e74c3c", "low")) ∧
    ((0 : ℚ) < 50 ∧ getMarkerProperties 0 = ("#e74c3c", "low")) ∧
    (getMarkerProperties 80).1 ≠ "#808080" :=
  ⟨⟨by norm_num, (claim_C4_discrete_policy 80).1 (by norm_num)⟩,
   ⟨by norm_num, by norm_num,
    (claim_C4_discrete_policy 60).2.1 (by norm_num) (by norm_num)⟩,
   ⟨by norm_num, (claim_C4_discrete_policy 10).2.2.1 (by norm_num)⟩,
   ⟨by norm_num, (claim_C4_discrete_policy 0).2.2.1 (by norm_num)⟩,
   (claim_C4_discrete_policy 80).2.2.2⟩

/-! ## Station catalog extractor (claims C5, C6)

Embedding of `extract_kmz_data` (map_utils.py, lines 29–93) and of the
spatial-info merge in `calculate_all_stations_availability`
(map_utils.py, lines 856–866).  Python string operations are modelled at
the character-list level so they stay kernel-computable. -/

/-- `str.split(sep)` for a one-character separator:
`"".split(',') = [""]`, `"a,".split(',') = ["a", ""]`, etc. -/
def splitOnChar (sep : Char) : List Char → List (List Char)
  | [] => [[]]
  | c :: rest =>
    let r := splitOnChar sep rest
    if c = sep then [] :: r
    else
      match r with
      | [] => [[c]]
      | t :: ts => (c :: t) :: ts

/-- `str.strip()`: drop leading and trailing whitespace. -/
def trimChars (cs : List Char) : List Char :=
  ((cs.dropWhile Char.isWhitespace).reverse.dropWhile Char.isWhitespace).reverse

/-- `str.strip()` at the string level. -/
def pyStrip (s : String) : String := ⟨trimChars s.data⟩

/-- Value of a decimal digit character. -/
def digitVal (c : Char) : Option ℕ :=
  if c = '0' then some 0 else if c = '1' then some 1 else if c = '2' then some 2
  else if c = '3' then some 3 else if c = '4' then some 4 else if c = '5' then some 5
  else if c = '6' then some 6 else if c = '7' then some 7 else if c = '8' then some 8
  else if c = '9' then some 9 else none

def parseDigitsAux (acc : Option (ℕ × ℕ)) (c : Char) : Option (ℕ × ℕ) :=
  match acc, digitVal c with
  | some (v, n), some dv => some (10 * v + dv, n + 1)
  | _, _ => none

/-- Parse a run of decimal digits into (value, digit count); `none` if any
character is not a digit. -/
def parseDigits (cs : List Char) : Option (ℕ × ℕ) :=
  cs.foldl parseDigitsAux (some (0, 0))

/-- Unsigned decimal numeral: integer digits with an optional single
decimal point and fraction digits; at least one digit must be present. -/
def parseUnsignedRaw (cs : List Char) : Option (ℕ × ℕ × ℕ) :=
  match splitOnChar '.' cs with
  | [ip] =>
    match parseDigits ip with
    | some (v, n) => if 0 < n then some (v, 0, 0) else none
    | none => none
  | [ip, fp] =>
    match parseDigits ip, parseDigits fp with
    | some (vi, ni), some (vf, nf) =>
        if 0 < ni + nf then some (vi, vf, nf) else none
    | _, _ => none
  | _ => none

/-- Syntactic part of Python `float()` on a plain decimal numeral
(optional sign, integer digits, optional fraction): returns
(negative?, integer value, fraction value, fraction length), or `none`
when the text is not a valid numeral (then `float()` raises `ValueError`).
Exponent and `inf`/`nan` forms, which never occur in catalog coordinate
tokens, are not modelled. -/
def parseFloatRaw (cs : List Char) : Option (Bool × ℕ × ℕ × ℕ) :=
  match trimChars cs with
  | [] => none
  | c :: rest =>
    if c = '-' then (parseUnsignedRaw rest).map (fun p => (true, p))
    else if c = '+' then (parseUnsignedRaw rest).map (fun p => (false, p))
    else (parseUnsignedRaw (c :: rest)).map (fun p => (false, p))

/-- Numeric value of the parsed parts of a decimal numeral. -/
def ratOfParts (neg : Bool) (vi vf nf : ℕ) : ℚ :=
  (if neg then -1 else 1) * ((vi : ℚ) + (vf : ℚ) / (10 : ℚ) ^ nf)

/-- Python `float()` on a token (see `parseFloatRaw`). -/
def parseFloatChars (cs : List Char) : Option ℚ :=
  (parseFloatRaw cs).map (fun p => ratOfParts p.1 p.2.1 p.2.2.1 p.2.2.2)

/-- A `Placemark` element as seen by `extract_kmz_data`: the optional
text of its `name` child and of its `Point/coordinates` child.  `none`
models a missing tag or a tag whose `.string` is `None`; the empty
string is falsy in Python and handled by the code's truthiness tests. -/
structure Placemark where
  nameText : Option String
  coordsText : Option String

/-- A station record dict built by `extract_kmz_data` (map_utils.py,
lines 72–76): exactly the keys `name`, `latitude`, `longitude`. -/
structure Station where
  name : String
  latitude : ℚ
  longitude : ℚ
deriving DecidableEq

/-- Embeds the per-placemark body of `extract_kmz_data` (map_utils.py,
lines 56–82).  A record is produced only when: the name tag exists with
truthy (non-empty) text; the coordinates tag exists with truthy text; the
comma-split of the stripped coordinate text has at least two tokens; and
both tokens parse as floats — the first as longitude, the second as
latitude.  Any failure skips the placemark (the batch continues). -/
def processPlacemark (pm : Placemark) : Option Station :=
  match pm.nameText with
  | none => none
  | some nm =>
    if nm = "" then none
    else
      match pm.coordsText with
      | none => none
      | some cs =>
        if cs = "" then none
        else
          match splitOnChar ',' (trimChars cs.data) with
          | c0 :: c1 :: _ =>
            match parseFloatChars c0, parseFloatChars c1 with
            | some lon, some lat => some ⟨pyStrip nm, lat, lon⟩
            | _, _ => none
          | _ => none

/-- `extract_kmz_data`: the station records of all placemarks, skipped
placemarks contributing nothing. -/
def extractKmzData (pms : List Placemark) : List Station :=
  pms.filterMap processPlacemark

/-- The numeric key–value view of a station dict built by
`extract_kmz_data`: only `latitude` and `longitude` are present (there is
no `elevation` key). -/
def stationFields (st : Station) : List (String × ℚ) :=
  [("latitude", st.latitude), ("longitude", st.longitude)]

/-- Python dict subscript `d[k]`: raises `KeyError: k` when absent. -/
def dictGet (fields : List (String × ℚ)) (k : String) : Except String ℚ :=
  match fields.lookup k with
  | some v => Except.ok v
  | none => Except.error ("KeyError: " ++ k)

/-- Embeds lines 861–864 of `calculate_all_stations_availability`
(map_utils.py): for a station present in the catalog dictionary, spatial
info is merged by the subscript reads `stations_dict[name]['latitude']`,
`['longitude']`, `['elevation']` in that order; a raised `KeyError`
propagates (there is no enclosing try/except in the per-file loop). -/
def mergeSpatialInfo (st : Station) : Except String (List (String × ℚ)) := do
  let la ← dictGet (stationFields st) "latitude"
  let lo ← dictGet (stationFields st) "longitude"
  let el ← dictGet (stationFields st) "elevation"
  Except.ok [("latitude", la), ("longitude", lo), ("elevation", el)]

/-! ## Claims C5, C6 -/

/-- **C5 (code bug).** The station dicts built by `extract_kmz_data` carry
no `elevation` key, so the spatial-info merge of
`calculate_all_stations_availability` raises `KeyError: 'elevation'` for
every station found in the catalog — the aggregation crashes instead of
returning the nested station → level → statistics result with elevation
merged in.  Evaluated concretely at the Cuiaba record. -/
theorem claim_C5_elevation_keyerror :
    (∀ st : Station, mergeSpatialInfo st = Except.error "KeyError: elevation") ∧
    mergeSpatialInfo ⟨"Cuiaba", -15.6, -56.07⟩
      = Except.error "KeyError: elevation" := by
  have h : ∀ st : Station,
      mergeSpatialInfo st = Except.error "KeyError: elevation" := by
    intro st
    rfl
  exact ⟨h, h _⟩

/-- **C6 (amended).** Every station record produced by the extractor comes
from a placemark with a present, non-empty name (the record name is the
trimmed text) and coordinate text whose first comma-separated token parses
as the longitude and second as the latitude (never swapped); a placemark
whose processing fails — malformed coordinates, or an absent or empty
name — is skipped without aborting the batch; and the Cuiaba placemark
with coordinates "-56.07,-15.6,0" yields
{name: "Cuiaba", latitude: -15.6, longitude: -56.07}. -/
theorem claim_C6_extractor (pms : List Placemark) (pm : Placemark)
    (st : Station) :
    (processPlacemark pm = some st →
      (∃ nm, pm.nameText = some nm ∧ ¬ nm = "" ∧ st.name = pyStrip nm) ∧
      (∃ cs c0 c1 rest, pm.coordsText = some cs ∧ ¬ cs = "" ∧
        splitOnChar ',' (trimChars cs.data) = c0 :: c1 :: rest ∧
        parseFloatChars c0 = some st.longitude ∧
        parseFloatChars c1 = some st.latitude)) ∧
    (processPlacemark pm = none →
      extractKmzData (pm :: pms) = extractKmzData pms) ∧
    extractKmzData [⟨some "Cuiaba", some "-56.07,-15.6,0"⟩]
      = [⟨"Cuiaba", -15.6, -56.07⟩] := by
  refine ⟨?_, ?_, ?_⟩
  · intro hps
    unfold processPlacemark at hps
    split at hps
    · exact absurd hps (by simp)
    · rename_i nm hn
      split at hps
      · exact absurd hps (by simp)
      · rename_i hnm
        split at hps
        · exact absurd hps (by simp)
        · rename_i cs hc
          split at hps
          · exact absurd hps (by simp)
          · rename_i hcs
            split at hps
            · rename_i c0 c1 rest hsplit
              split at hps
              · rename_i lon lat hf0 hf1
                rw [Option.some_inj] at hps
                subst hps
                exact ⟨⟨nm, hn, hnm, rfl⟩,
                  ⟨cs, c0, c1, rest, hc, hcs, hsplit, by rw [hf0], by rw [hf1]⟩⟩
              · exact absurd hps (by simp)
            · exact absurd hps (by simp)
  · intro h
    unfold extractKmzData
    rw [List.filterMap_cons_none h]
  · have hraw : extractKmzData [⟨some "Cuiaba", some "-56.07,-15.6,0"⟩]
        = [⟨"Cuiaba", ratOfParts true 15 6 1, ratOfParts true 56 7 2⟩] := rfl
    rw [hraw]
    norm_num [ratOfParts]

/-- **C6 counterexample.** A placemark with valid coordinate text but no
name yields no station record at all — the extractor does not default the
name to "no name". -/
theorem claim_C6_counterexample :
    extractKmzData [⟨none, some "-56.07,-15.6,0"⟩] = [] ∧
    ∀ nm lat lon,
      extractKmzData [⟨none, some "-56.07,-15.6,0"⟩] ≠ [⟨nm, lat, lon⟩] := by
  constructor
  · rfl
  · intro nm lat lon h
    have h0 : extractKmzData [⟨none, some "-56.07,-15.6,0"⟩]
        = ([] : List Station) := rfl
    rw [h0] at h
    exact List.noConfusion h

theorem claim_C6_witness :
    processPlacemark ⟨some "BadCoords", some "xyz"⟩ = none ∧
    extractKmzData
        [⟨some "BadCoords", some "xyz"⟩, ⟨some "Cuiaba", some "-56.07,-15.6,0"⟩]
      = extractKmzData [⟨some "Cuiaba", some "-56.07,-15.6,0"⟩] :=
  ⟨rfl,
   (claim_C6_extractor [⟨some "Cuiaba", some "-56.07,-15.6,0"⟩]
      ⟨some "BadCoords", some "xyz"⟩ ⟨"x", 0, 0⟩).2.1 rfl⟩

/-! ## Gap identification (claim C7)

Embedding of `identify_gaps` (etl_aeronet_data.py, lines 160–207), with
calendar dates represented by their day ordinals (`dateOrdinal`):
timestamp subtraction in the source is exactly ordinal subtraction. -/

/-- The grouping loop of `identify_gaps` (lines 195–205): walk the sorted
missing days carrying the current run's start and the previous day; close
the run when the next missing day is more than one day later, recording
(start, end, inclusive duration). -/
def groupGapsGo (gapStart prev : ℕ) : List ℕ → List (ℕ × ℕ × ℕ)
  | [] => [(gapStart, prev, prev - gapStart + 1)]
  | x :: xs =>
    if 1 < x - prev then
      (gapStart, prev, prev - gapStart + 1) :: groupGapsGo x x xs
    else
      groupGapsGo gapStart x xs

/-- Group a sorted list of missing days into gap records; an empty
missing list yields no gaps. -/
def groupGaps : List ℕ → List (ℕ × ℕ × ℕ)
  | [] => []
  | x :: xs => groupGapsGo x x xs

/-- Embeds `identify_gaps` (etl_aeronet_data.py, lines 160–207): the
expected range is the explicit [start, end] when given, else the data's
own min/max (`none` when the frame has no dates — pandas then fails);
`missing_dates = sorted(set(full_date_range) - set(actual_dates))`
becomes a filter of the ascending full range; consecutive missing days
are grouped into gap records. -/
def identifyGaps (days : List ℕ) (startDay endDay : Option ℕ) :
    Option (List (ℕ × ℕ × ℕ)) :=
  match startDay.orElse (fun _ => days.min?),
      endDay.orElse (fun _ => days.max?) with
  | some s, some e =>
    some (groupGaps
      ((List.range' s (e + 1 - s)).filter (fun x => decide (x ∉ days))))
  | _, _ => none

/-- The calendar days covered by a gap record, as an interval. -/
def gapDays (g : ℕ × ℕ × ℕ) : List ℕ := List.range' g.1 (g.2.1 + 1 - g.1)

theorem groupGapsGo_flatten (xs : List ℕ) : ∀ gapStart prev : ℕ,
    gapStart ≤ prev → List.Chain (· < ·) prev xs →
    ((groupGapsGo gapStart prev xs).map gapDays).flatten
      = List.range' gapStart (prev + 1 - gapStart) ++ xs := by
  induction xs with
  | nil =>
    intro gapStart prev hle _hch
    simp [groupGapsGo, gapDays]
  | cons x xs ih =>
    intro gapStart prev hle hch
    rw [List.chain_cons] at hch
    unfold groupGapsGo
    by_cases hgap : 1 < x - prev
    · rw [if_pos hgap]
      rw [List.map_cons, List.flatten_cons, ih x x le_rfl hch.2]
      have hx1 : x + 1 - x = 1 := by omega
      rw [hx1]
      show gapDays (gapStart, prev, prev - gapStart + 1)
          ++ (List.range' x 1 ++ xs)
        = List.range' gapStart (prev + 1 - gapStart) ++ x :: xs
      unfold gapDays
      simp
    · rw [if_neg hgap]
      have hx : x = prev + 1 := by omega
      rw [ih gapStart x (by omega) hch.2]
      subst hx
      have h2 : prev + 1 + 1 - gapStart = (prev + 1 - gapStart) + 1 := by omega
      rw [h2, List.range'_concat]
      have h3 : gapStart + 1 * (prev + 1 - gapStart) = prev + 1 := by omega
      rw [h3, List.append_assoc]
      rfl

theorem groupGapsGo_bounds (xs : List ℕ) : ∀ gapStart prev : ℕ,
    gapStart ≤ prev → List.Chain (· < ·) prev xs →
    ∀ g ∈ groupGapsGo gapStart prev xs,
      g.1 ≤ g.2.1 ∧ g.2.2 = g.2.1 + 1 - g.1 := by
  induction xs with
  | nil =>
    intro gapStart prev hle _hch g hg
    rw [groupGapsGo, List.mem_singleton] at hg
    subst hg
    refine ⟨?_, ?_⟩ <;> dsimp only <;> omega
  | cons x xs ih =>
    intro gapStart prev hle hch g hg
    rw [List.chain_cons] at hch
    unfold groupGapsGo at hg
    by_cases hgap : 1 < x - prev
    · rw [if_pos hgap, List.mem_cons] at hg
      rcases hg with rfl | hg
      · refine ⟨?_, ?_⟩ <;> dsimp only <;> omega
      · exact ih x x le_rfl hch.2 g hg
    · rw [if_neg hgap] at hg
      exact ih gapStart x (by omega) hch.2 g hg

theorem groupGapsGo_head (xs : List ℕ) : ∀ gapStart prev : ℕ,
    ∃ e d tl, groupGapsGo gapStart prev xs = (gapStart, e, d) :: tl := by
  induction xs with
  | nil =>
    intro gapStart prev
    exact ⟨prev, prev - gapStart + 1, [], rfl⟩
  | cons x xs ih =>
    intro gapStart prev
    unfold groupGapsGo
    by_cases hgap : 1 < x - prev
    · rw [if_pos hgap]
      exact ⟨prev, prev - gapStart + 1, groupGapsGo x x xs, rfl⟩
    · rw [if_neg hgap]
      exact ih gapStart x

theorem groupGapsGo_sep (xs : List ℕ) : ∀ gapStart prev : ℕ,
    List.Chain' (fun g g' => g.2.1 + 1 < g'.1)
      (groupGapsGo gapStart prev xs) := by
  induction xs with
  | nil =>
    intro gapStart prev
    exact List.chain'_singleton _
  | cons x xs ih =>
    intro gapStart prev
    unfold groupGapsGo
    by_cases hgap : 1 < x - prev
    · rw [if_pos hgap]
      obtain ⟨e, d, tl, heq⟩ := groupGapsGo_head xs x x
      rw [heq]
      refine List.Chain'.cons ?_ (heq ▸ ih x x)
      show prev + 1 < x
      omega
    · rw [if_neg hgap]
      exact ih gapStart x

/-! ## Claim C7 -/

/-- **C7.** Gap identification reports exactly the maximal runs of
consecutive missing calendar days within the expected range (explicit
bounds when given, else the data's own min/max): the gap intervals
concatenate, in increasing order, to exactly the list of missing days
(so every reported day is missing and every missing day is reported);
each record's duration is the inclusive length `end - start + 1`; and
consecutive gap records are separated by at least one observed day
(maximality).  For observed dates {2020-01-01, 2020-01-02, 2020-01-09}
it reports exactly one gap from 2020-01-03 to 2020-01-08, duration 6. -/
theorem claim_C7_gap_identification (days : List ℕ) (s? e? : Option ℕ)
    (lo hi : ℕ) (gaps : List (ℕ × ℕ × ℕ))
    (hlo : s?.orElse (fun _ => days.min?) = some lo)
    (hhi : e?.orElse (fun _ => days.max?) = some hi)
    (h : identifyGaps days s? e? = some gaps) :
    ((gaps.map gapDays).flatten
        = (List.range' lo (hi + 1 - lo)).filter (fun x => decide (x ∉ days))) ∧
    (∀ g ∈ gaps, g.1 ≤ g.2.1 ∧ g.2.2 = g.2.1 + 1 - g.1) ∧
    List.Chain' (fun g g' => g.2.1 + 1 < g'.1) gaps ∧
    identifyGaps
        [dateOrdinal ⟨2020, 1, 1⟩, dateOrdinal ⟨2020, 1, 2⟩,
          dateOrdinal ⟨2020, 1, 9⟩] none none
      = some [(dateOrdinal ⟨2020, 1, 3⟩, dateOrdinal ⟨2020, 1, 8⟩, 6)] := by
  unfold identifyGaps at h
  rw [hlo, hhi] at h
  dsimp only at h
  rw [Option.some_inj] at h
  subst h
  have hpw : ((List.range' lo (hi + 1 - lo)).filter
      (fun x => decide (x ∉ days))).Pairwise (· < ·) :=
    (List.pairwise_lt_range' lo (hi + 1 - lo)).filter _
  have hinst : identifyGaps
      [dateOrdinal ⟨2020, 1, 1⟩, dateOrdinal ⟨2020, 1, 2⟩,
        dateOrdinal ⟨2020, 1, 9⟩] none none
      = some [(dateOrdinal ⟨2020, 1, 3⟩, dateOrdinal ⟨2020, 1, 8⟩, 6)] := by
    have hy2020 : daysBeforeYear 2020 = 737790 := by
      rw [daysBeforeYear_closed]
    have ho : ∀ dd : ℕ, dateOrdinal ⟨2020, 1, dd⟩ = 737790 + (dd - 1) := by
      intro dd
      unfold dateOrdinal
      simp only
      rw [hy2020]
      have hm : daysBeforeMonth 2020 1 = 0 := by decide
      rw [hm]
    have h1 : dateOrdinal ⟨2020, 1, 1⟩ = 737790 := by rw [ho 1]
    have h2 : dateOrdinal ⟨2020, 1, 2⟩ = 737791 := by rw [ho 2]
    have h9 : dateOrdinal ⟨2020, 1, 9⟩ = 737798 := by rw [ho 9]
    have h3 : dateOrdinal ⟨2020, 1, 3⟩ = 737792 := by rw [ho 3]
    have h8 : dateOrdinal ⟨2020, 1, 8⟩ = 737797 := by rw [ho 8]
    rw [h1, h2, h9, h3, h8]
    decide
  cases hm : (List.range' lo (hi + 1 - lo)).filter
      (fun x => decide (x ∉ days)) with
  | nil =>
    exact ⟨by simp [groupGaps], by simp [groupGaps], by simp [groupGaps], hinst⟩
  | cons m ms =>
    rw [hm] at hpw
    have hch : List.Chain (· < ·) m ms := List.chain_iff_pairwise.mpr hpw
    refine ⟨?_, ?_, ?_, hinst⟩
    · show ((groupGapsGo m m ms).map gapDays).flatten = m :: ms
      rw [groupGapsGo_flatten ms m m le_rfl hch]
      have : m + 1 - m = 1 := by omega
      rw [this]
      rfl
    · exact groupGapsGo_bounds ms m m le_rfl hch
    · exact groupGapsGo_sep ms m m

theorem claim_C7_witness :
    (Option.orElse none (fun _ => List.min? [10, 11, 18]) = some 10) ∧
    (Option.orElse none (fun _ => List.max? [10, 11, 18]) = some 18) ∧
    identifyGaps [10, 11, 18] none none = some [(12, 17, 6)] ∧
    ((([((12 : ℕ), (17 : ℕ), (6 : ℕ))]).map gapDays).flatten
        = (List.range' 10 (18 + 1 - 10)).filter
            (fun x => decide (x ∉ [10, 11, 18]))) ∧
    List.Chain' (fun g g' => g.2.1 + 1 < g'.1)
      [((12 : ℕ), (17 : ℕ), (6 : ℕ))] := by
  have h := claim_C7_gap_identification [10, 11, 18] none none 10 18
    [(12, 17, 6)] (by decide) (by decide) (by decide)
  exact ⟨by decide, by decide, by decide, h.1, h.2.2.1⟩

/-! ## ETL outlier cleaning (claim C8)

Embedding of the outlier-replacement loop of `clean_dataframes`
(etl_aeronet_data.py, lines 46–51).  A numeric column is a list of cells;
`none` models NaN.  The column mean and standard deviation are computed
by pandas from the column; the standard deviation involves a real square
root, so both enter the model as parameters. -/

/-- One cell under the mask
`(df[col] < mean - t*std) | (df[col] > mean + t*std)` (line 50): a present
value strictly outside the band is replaced by NaN; NaN stays NaN. -/
def cleanValue (mean std threshold : ℚ) (v : Option ℚ) : Option ℚ :=
  match v with
  | none => none
  | some x =>
    if x < mean - threshold * std ∨ x > mean + threshold * std then none
    else some x

/-- One numeric column of `clean_dataframes` (lines 46–51): the mask is
applied cell-wise, and the whole replacement is skipped when
`std != 0` fails (line 49). -/
def cleanColumn (threshold mean std : ℚ) (col : List (Option ℚ)) :
    List (Option ℚ) :=
  if std ≠ 0 then col.map (cleanValue mean std threshold) else col

/-! ## AOD downloader (claim C9)

Embedding of `download_aeronet_aod` (download_aeronet_data.py,
lines 21–57).  The file system is explicit state; the network is an
oracle from URLs to an optional response body; the returned list records
the network calls performed. -/

structure FileSystem where
  dirs : List String
  files : List (String × String)
deriving DecidableEq

inductive DownloadReport where
  | alreadyExists (path : String)
  | downloaded (path : String)
  | downloadError (path : String)
deriving DecidableEq

/-- `str.lower()` (Python) / character-wise lowercasing. -/
def pyLower (s : String) : String := ⟨s.data.map Char.toLower⟩

/-- `AVG` code selection (lines 34–40): "all points" → 10,
"daily averages" → 20, anything else raises `ValueError`. -/
def avgCode (dataFormat : String) : Option ℕ :=
  if pyLower dataFormat = "all points" then some 10
  else if pyLower dataFormat = "daily averages" then some 20
  else none

/-- `date.split('-')`. -/
def splitDash (s : String) : List String :=
  (splitOnChar '-' s.data).map (fun cs => ⟨cs⟩)

/-- Output filename (line 46):
`{site}_{start}_to_{end}_AOD{level}_{format with spaces as underscores}.txt`. -/
def outputFilename (site startDate endDate aodLevel dataFormat : String) :
    String :=
  site ++ "_" ++ startDate ++ "_to_" ++ endDate ++ "_AOD" ++ aodLevel ++ "_"
    ++ (⟨dataFormat.data.map (fun c => if c = ' ' then '_' else c)⟩ : String)
    ++ ".txt"

/-- The CGI URL built from the base template (lines 28, 43). -/
def downloadUrl (site sy sm sd ey em ed aodLevel : String) (avg : ℕ) :
    String :=
  "https://aeronet.gsfc.nasa.gov/cgi-bin/print_web_data_v3?site=" ++ site
    ++ "&year=" ++ sy ++ "&month=" ++ sm ++ "&day=" ++ sd
    ++ "&year2=" ++ ey ++ "&month2=" ++ em ++ "&day2=" ++ ed
    ++ "&AOD" ++ aodLevel ++ "=1&AVG=" ++ toString avg ++ "&if_no_html=1"

/-- Embeds `download_aeronet_aod` (lines 21–57): ensure the download
folder exists; parse the dates; select the AVG code (raising on an
unknown format); build the URL and output path; then — only if the target
file does not already exist — perform the single network call, writing
the response on success and merely printing on failure (the exception is
caught).  When the file exists the network is never touched and the
function reports it as already present. -/
def downloadAeronetAod (net : String → Option String) (fs : FileSystem)
    (site startDate endDate _dataType dataFormat aodLevel
      downloadFolder : String) :
    Except String (FileSystem × List String × DownloadReport) :=
  let fs1 := if downloadFolder ∈ fs.dirs then fs
    else { fs with dirs := downloadFolder :: fs.dirs }
  match splitDash startDate, splitDash endDate with
  | [sy, sm, sd], [ey, em, ed] =>
    match avgCode dataFormat with
    | none => Except.error
        "ValueError: Invalid data format specified. Choose all points or daily averages."
    | some avg =>
      let url := downloadUrl site sy sm sd ey em ed aodLevel avg
      let path := downloadFolder ++ "/"
        ++ outputFilename site startDate endDate aodLevel dataFormat
      if (fs1.files.lookup path).isSome then
        Except.ok (fs1, [], DownloadReport.alreadyExists path)
      else
        match net url with
        | some content =>
          Except.ok ({ fs1 with files := (path, content) :: fs1.files },
            [url], DownloadReport.downloaded path)
        | none =>
          Except.ok (fs1, [url], DownloadReport.downloadError path)
  | _, _ => Except.error "ValueError: date unpack failed"

/-! ## Claims C8, C9 -/

/-- **C8.** In the ETL cleaning step a present numeric value is replaced
with an absent value if and only if the column's standard deviation is
non-zero and the value lies strictly more than `threshold` standard
deviations from the column mean; when the standard deviation is zero the
column is returned unchanged; and with mean 1, standard deviation 0.1 and
threshold 3 the value 1.5 is replaced while 1.2 is kept. -/
theorem claim_C8_outlier_cleaning (threshold mean std : ℚ)
    (col : List (Option ℚ)) (i : ℕ) (x : ℚ)
    (hx : col[i]? = some (some x)) :
    ((cleanColumn threshold mean std col)[i]? = some none
        ↔ (std ≠ 0 ∧ threshold * std < |x - mean|)) ∧
    (std = 0 → cleanColumn threshold mean std col = col) ∧
    cleanValue 1 (1/10) 3 (some (3/2)) = none ∧
    cleanValue 1 (1/10) 3 (some (6/5)) = some (6/5) := by
  have habs : ∀ y : ℚ, (y < mean - threshold * std ∨ y > mean + threshold * std)
      ↔ threshold * std < |y - mean| := by
    intro y
    rw [lt_abs]
    constructor
    · rintro (h | h)
      · right
        linarith
      · left
        linarith
    · rintro (h | h)
      · right
        linarith
      · left
        linarith
  refine ⟨?_, ?_, ?_, ?_⟩
  · unfold cleanColumn
    by_cases hstd : std = 0
    · rw [if_neg (by simp [hstd])]
      rw [hx]
      simp [hstd]
    · rw [if_pos hstd]
      rw [List.getElem?_map, hx, Option.map_some']
      unfold cleanValue
      dsimp only
      by_cases hout : x < mean - threshold * std ∨ x > mean + threshold * std
      · rw [if_pos hout]
        simp only [Option.some_inj]
        constructor
        · intro _h
          exact ⟨hstd, (habs x).mp hout⟩
        · intro _h
          trivial
      · rw [if_neg hout]
        constructor
        · intro hcontra
          simp at hcontra
        · intro hc
          exact absurd ((habs x).mpr hc.2) hout
  · intro hstd
    unfold cleanColumn
    rw [if_neg (by simp [hstd])]
  · unfold cleanValue
    dsimp only
    rw [if_pos]
    right
    norm_num
  · unfold cleanValue
    dsimp only
    rw [if_neg]
    rintro (h | h) <;> linarith [h]

theorem claim_C8_witness :
    (cleanColumn 3 1 (1/10) [some (3/2), some (6/5)])[0]? = some none ∧
    (cleanColumn 3 1 (1/10) [some (3/2), some (6/5)])[1]? = some (some (6/5)) ∧
    cleanValue 1 (1/10) 3 (some (3/2)) = none ∧
    cleanValue 1 (1/10) 3 (some (6/5)) = some (6/5) := by
  have h0 := claim_C8_outlier_cleaning 3 1 (1/10)
    [some (3/2), some (6/5)] 0 (3/2) rfl
  have h1 := claim_C8_outlier_cleaning 3 1 (1/10)
    [some (3/2), some (6/5)] 1 (6/5) rfl
  have habs0 : |(3 : ℚ)/2 - 1| = 1/2 := by
    rw [show ((3 : ℚ)/2 - 1) = 1/2 by norm_num]
    exact abs_of_pos (by norm_num)
  refine ⟨h0.1.mpr ⟨by norm_num, by rw [habs0]; norm_num⟩, ?_, h0.2.2.1, h0.2.2.2⟩
  show (cleanColumn 3 1 (1/10) [some (3/2), some (6/5)])[1]? = some (some (6/5))
  unfold cleanColumn
  rw [if_pos (by norm_num)]
  rw [List.getElem?_map]
  show Option.map (cleanValue 1 (1/10) 3) (some (some (6/5))) = some (some (6/5))
  rw [Option.map_some']
  rw [h1.2.2.2]

/-- **C9.** When the target output file already exists, the downloader
performs zero network calls, leaves the file table unchanged, and reports
the file as already present; invoking it a second time with identical
arguments returns the same result, so the second call also has no
effect. -/
theorem claim_C9_download_idempotent (net : String → Option String)
    (fs : FileSystem) (site startDate endDate dataType dataFormat aodLevel
      downloadFolder : String) (avg : ℕ) (sy sm sd ey em ed : String)
    (c : String)
    (hs : splitDash startDate = [sy, sm, sd])
    (he : splitDash endDate = [ey, em, ed])
    (hfmt : avgCode dataFormat = some avg)
    (hfile : fs.files.lookup (downloadFolder ++ "/"
      ++ outputFilename site startDate endDate aodLevel dataFormat) = some c) :
    ∀ fs1 : FileSystem,
      fs1 = (if downloadFolder ∈ fs.dirs then fs
        else { fs with dirs := downloadFolder :: fs.dirs }) →
      downloadAeronetAod net fs site startDate endDate dataType dataFormat
          aodLevel downloadFolder
        = Except.ok (fs1, [], DownloadReport.alreadyExists (downloadFolder
            ++ "/" ++ outputFilename site startDate endDate aodLevel dataFormat)) ∧
      fs1.files = fs.files ∧
      downloadAeronetAod net fs1 site startDate endDate dataType dataFormat
          aodLevel downloadFolder
        = Except.ok (fs1, [], DownloadReport.alreadyExists (downloadFolder
            ++ "/" ++ outputFilename site startDate endDate aodLevel dataFormat)) := by
  intro fs1 hfs1
  have hfiles : fs1.files = fs.files := by
    rw [hfs1]
    by_cases hd : downloadFolder ∈ fs.dirs
    · rw [if_pos hd]
    · rw [if_neg hd]
  have hdir1 : downloadFolder ∈ fs1.dirs := by
    rw [hfs1]
    by_cases hd : downloadFolder ∈ fs.dirs
    · rw [if_pos hd]
      exact hd
    · rw [if_neg hd]
      exact List.mem_cons_self _ _
  have hrun1 : downloadAeronetAod net fs site startDate endDate dataType
      dataFormat aodLevel downloadFolder
      = Except.ok (fs1, [], DownloadReport.alreadyExists (downloadFolder
          ++ "/" ++ outputFilename site startDate endDate aodLevel dataFormat)) := by
    unfold downloadAeronetAod
    rw [hs, he]
    dsimp only
    rw [hfmt]
    dsimp only
    rw [← hfs1, if_pos (by rw [hfiles, hfile]; rfl)]
  have hrun2 : downloadAeronetAod net fs1 site startDate endDate dataType
      dataFormat aodLevel downloadFolder
      = Except.ok (fs1, [], DownloadReport.alreadyExists (downloadFolder
          ++ "/" ++ outputFilename site startDate endDate aodLevel dataFormat)) := by
    unfold downloadAeronetAod
    rw [hs, he]
    dsimp only
    rw [hfmt]
    dsimp only
    rw [if_pos hdir1, if_pos (by rw [hfiles, hfile]; rfl)]
  exact ⟨hrun1, hfiles, hrun2⟩

def netC9 : String → Option String := fun _ => none

def fsC9 : FileSystem :=
  ⟨["AOD_data_lvl20"],
   [("AOD_data_lvl20/Cuiaba_1995-01-01_to_2024-12-31_AOD20_all_points.txt",
     "data")]⟩

theorem claim_C9_witness :
    downloadAeronetAod netC9 fsC9 "Cuiaba" "1995-01-01" "2024-12-31"
        "AOD" "all points" "20" "AOD_data_lvl20"
      = Except.ok (fsC9, [], DownloadReport.alreadyExists ("AOD_data_lvl20"
          ++ "/" ++ outputFilename "Cuiaba" "1995-01-01" "2024-12-31" "20"
            "all points")) ∧
    fsC9.files = fsC9.files ∧
    downloadAeronetAod netC9 fsC9 "Cuiaba" "1995-01-01" "2024-12-31"
        "AOD" "all points" "20" "AOD_data_lvl20"
      = Except.ok (fsC9, [], DownloadReport.alreadyExists ("AOD_data_lvl20"
          ++ "/" ++ outputFilename "Cuiaba" "1995-01-01" "2024-12-31" "20"
            "all points")) :=
  claim_C9_download_idempotent netC9 fsC9 "Cuiaba" "1995-01-01" "2024-12-31"
    "AOD" "all points" "20" "AOD_data_lvl20" 10 "1995" "01" "01"
    "2024" "12" "31" "data" rfl rfl rfl rfl fsC9
    (by rw [if_pos (show "AOD_data_lvl20" ∈ fsC9.dirs by decide)])

end Aeronet
